import Mathlib

/-!
Shallow embedding of the file-watch-copy tool (three near-identical Go
variants: watch.go and two unnamed parts). Filesystem state is a flat
association list from path to entry; file contents are byte lists.
The functions below mirror, case for case, the Go functions
IsDir, IsFile, mkdirAll, syncFile/sync, Copy (part_001), copyFile
(watch.go, including its unflushed bufio writer and missing O_TRUNC),
the AfterFunc timer body, the init-time mirror-directory diagnostic,
and ResolvePaths with filepath.Walk.
-/

namespace Watch

/-- Filesystem entry: a directory or a regular file with byte content. -/
inductive Entry where
  | dir : Entry
  | file : List Nat → Entry
deriving DecidableEq, Repr

/-- Flat filesystem: association list from path to entry (first match wins). -/
abbrev FS := List (String × Entry)

/-- Look a path up in the filesystem (models os.Stat / os.Open resolution). -/
def lookupFS (fs : FS) (p : String) : Option Entry :=
  match fs with
  | [] => none
  | (q, e) :: rest => if q = p then some e else lookupFS rest p

/-- Write an entry at a path, replacing any previous entry there. -/
def setFS (fs : FS) (p : String) (e : Entry) : FS :=
  (p, e) :: fs.filter (fun pr => !(pr.1 == p))

/-- Go IsDir: os.Stat succeeds and reports a directory; any stat error
(including a nonexistent path) yields false. -/
def IsDir (fs : FS) (p : String) : Bool :=
  match lookupFS fs p with
  | some .dir => true
  | _ => false

/-- Go IsFile is literally the negation of IsDir, so a nonexistent path
counts as a file. -/
def IsFile (fs : FS) (p : String) : Bool :=
  !(IsDir fs p)

/-- Go mkdirAll (os.MkdirAll): ok if the path is already a directory,
error if it exists as a regular file, otherwise register the directory. -/
def mkdirAll (fs : FS) (p : String) : Except String FS :=
  match lookupFS fs p with
  | some .dir => .ok fs
  | some (.file _) => .error "mkdir: not a directory"
  | none => .ok (setFS fs p .dir)

/-- filepath.Dir, simplified: the part of the path before its last slash
(root and slashless paths handled as in Go). -/
def dirName (p : String) : String :=
  let r := p.toList.reverse.dropWhile (fun c => c ≠ '/')
  match r with
  | [] => "."
  | ['/'] => "/"
  | _ :: rest => String.mk rest.reverse

/-- Go string slicing s[i:j]: none models the out-of-range panic. -/
def goSlice (s : List Char) (i j : Nat) : Option (List Char) :=
  if i ≤ j ∧ j ≤ s.length then some ((s.take j).drop i) else none

/-- Whether old occurs at the start of s (byte prefix test used by
strings.Replace when locating its first occurrence). -/
def leadsWith : List Char → List Char → Bool
  | _, [] => true
  | [], _ :: _ => false
  | c :: s, d :: old => if d = c then leadsWith s old else false

/-- Go strings.Replace(s, old, new, 1): replace the first occurrence
of old in s by new, or return s unchanged when old never occurs. -/
def replaceOnce (old new : List Char) : List Char → List Char
  | [] => if leadsWith [] old then new else []
  | c :: rest =>
    if leadsWith (c :: rest) old then new ++ (c :: rest).drop old.length
    else c :: replaceOnce old new rest

/-- Mirror-path computation of syncFile/sync. On windows the first two
characters of the path are sliced (none models the slice panic when the
path is shorter) and their first occurrence replaced by copyDir; on
path-rooted platforms copyDir is prepended. -/
def newPathOf (windows : Bool) (copyDir p : String) : Option String :=
  if windows then
    match goSlice p.toList 0 2 with
    | none => none
    | some pre => some (String.mk (replaceOnce pre copyDir.toList p.toList))
  else
    some (copyDir ++ p)

/-- A scheduled delayed copy (the time.AfterFunc closure's captured paths). -/
structure Pending where
  src : String
  dst : String
deriving DecidableEq, Repr

/-- syncFile/sync: guard on the configured mirror directory, compute the
mirror path, create directories immediately, and schedule the delayed copy
for regular files. Returns none on a windows slice panic; otherwise the
returned error, the updated filesystem, and the scheduled pending copy. -/
def sync (windows : Bool) (copyDir : String) (fs : FS) (filePath : String) :
    Option (Except String Unit × FS × Option Pending) :=
  if copyDir.length == 0 || !(IsDir fs copyDir) then
    some (.ok (), fs, none)
  else
    match newPathOf windows copyDir filePath with
    | none => none
    | some newPath =>
      if IsDir fs filePath then
        if IsDir fs newPath then
          some (.ok (), fs, none)
        else
          match mkdirAll fs newPath with
          | .ok fs1 => some (.ok (), fs1, none)
          | .error e => some (.error e, fs, none)
      else if IsFile fs filePath then
        match mkdirAll fs (dirName newPath) with
        | .error e => some (.error e, fs, none)
        | .ok fs1 => some (.ok (), fs1, some ⟨filePath, newPath⟩)
      else
        some (.ok (), fs, none)

/-- Copy (part_000/part_001): open the source, os.Create the destination
(creating or truncating it), stream the bytes across, and propagate every
error. -/
def Copy (fs : FS) (src dst : String) : Except String Unit × FS :=
  match lookupFS fs src with
  | none => (.error "open src: no such file or directory", fs)
  | some .dir =>
    match lookupFS fs dst with
    | some .dir => (.error "create dst: is a directory", fs)
    | _ => (.error "read src: is a directory", setFS fs dst (.file []))
  | some (.file c) =>
    match lookupFS fs dst with
    | some .dir => (.error "create dst: is a directory", fs)
    | _ => (.ok (), setFS fs dst (.file c))

/-- bufio writer size used by watch.go's copyFile. -/
def bufSize : Nat := 4096

/-- Bytes actually flushed through a bufio.Writer by io.Copy when Flush is
never called: the largest multiple of the buffer size not exceeding n. -/
def flushedLen (n : Nat) : Nat := n - n % bufSize

/-- copyFile (watch.go): the source-open error is printed but not returned;
the destination is opened O_WRONLY|O_CREATE (no O_TRUNC, so existing bytes
beyond what is written survive); the bufio.Writer is never flushed, so the
final partial buffer is silently dropped while io.Copy still reports every
byte as written with a nil error. -/
def copyFile (fs : FS) (dstFileName srcFileName : String) :
    Except String Nat × FS :=
  let srcE := lookupFS fs srcFileName
  match lookupFS fs dstFileName with
  | some .dir => (.error "open dst: is a directory", fs)
  | other =>
    let old := match other with
      | some (.file c) => c
      | _ => []
    let fs1 := setFS fs dstFileName (.file old)
    match srcE with
    | some (.file c) =>
      let k := flushedLen c.length
      (.ok c.length, setFS fs1 dstFileName (.file (c.take k ++ old.drop k)))
    | _ => (.error "read: invalid argument", fs1)

/-- The AfterFunc timer body of part_000/part_001: re-check IsFile on the
source, then run Copy; its error is logged (first component), the
filesystem updated. -/
def fireTimerPart (fs : FS) (pc : Pending) : Option String × FS :=
  if IsFile fs pc.src then
    match Copy fs pc.src pc.dst with
    | (.ok _, fs1) => (none, fs1)
    | (.error e, fs1) => (some e, fs1)
  else
    (none, fs)

/-- The AfterFunc timer body of watch.go: re-check IsFile on the source,
then run copyFile. -/
def fireTimerWatch (fs : FS) (pc : Pending) : Option String × FS :=
  if IsFile fs pc.src then
    match copyFile fs pc.dst pc.src with
    | (.ok _, fs1) => (none, fs1)
    | (.error e, fs1) => (some e, fs1)
  else
    (none, fs)

/-- init: copyDir is set from the optional second CLI argument only when
that argument names an existing directory. -/
def initCopyDir (fs : FS) (arg2 : Option String) : String :=
  match arg2 with
  | some a => if IsDir fs a then a else ""
  | none => ""

/-- Condition under which watch.go's init emits the diagnostic
"copy target dir is not exists": len(copyDir) > 0 || !IsDir(copyDir). -/
def diagWatchGo (fs : FS) (arg2 : Option String) : Bool :=
  let cd := initCopyDir fs arg2
  decide (0 < cd.length) || !(IsDir fs cd)

/-- Condition under which part_000/part_001's init emits the same
diagnostic: len(copyDir) == 0 || !IsDir(copyDir). -/
def diagParts (fs : FS) (arg2 : Option String) : Bool :=
  let cd := initCopyDir fs arg2
  (cd.length == 0) || !(IsDir fs cd)

mutual
/-- Stat result for a path on disk: a regular file, a directory whose
entries cannot be read (readDirNames fails during filepath.Walk), or a
readable directory with its children. -/
inductive Tree where
  | file (name : String) : Tree
  | baddir (name : String) : Tree
  | dir (name : String) (children : TreeList) : Tree

/-- Children of a directory (mutual list, kept non-nested so recursion
over it is structural). -/
inductive TreeList where
  | nil : TreeList
  | cons (hd : Tree) (tl : TreeList) : TreeList
end

/-- Base name of a tree node. -/
def Tree.name : Tree → String
  | .file n => n
  | .baddir n => n
  | .dir n _ => n

/-- Whether the stat result reports a directory. -/
def Tree.isDirT : Tree → Bool
  | .file _ => false
  | .baddir _ => true
  | .dir _ _ => true

mutual
/-- filepath.Walk with the walker of ResolvePaths rooted at path: the
first component is every path the walker appended (directories only),
the second the error filepath.Walk returned, if any. With skip (the
NoRecurse policy) the walker returns filepath.SkipDir at the root, so
only the root is appended and no descent happens. A directory whose
entries cannot be read makes the walker receive and return that error
before appending, and aborts the remaining traversal; paths already
appended survive because the walker appends into a shared slice. -/
def walkFromE (skip : Bool) (path : String) : Tree → List String × Option String
  | .file _ => ([], none)
  | .baddir _ => ([], some "walk: readdir error")
  | .dir _ cs =>
    if skip then ([path], none)
    else
      (path :: (walkKidsE skip path cs).1, (walkKidsE skip path cs).2)

/-- Walk the children of a directory in order, stopping at the first
child whose walk returns an error. -/
def walkKidsE (skip : Bool) (path : String) : TreeList → List String × Option String
  | .nil => ([], none)
  | .cons c rest =>
    if (walkFromE skip (path ++ "/" ++ Tree.name c) c).2.isSome then
      walkFromE skip (path ++ "/" ++ Tree.name c) c
    else
      ((walkFromE skip (path ++ "/" ++ Tree.name c) c).1 ++ (walkKidsE skip path rest).1,
       (walkKidsE skip path rest).2)
end

/-- The loop body of ResolvePaths: empty arguments are skipped, a failed
stat returns the error immediately (discarding everything resolved so
far, as the Go code returns nil for the slice), a regular-file argument
is appended directly, and a directory argument is walked with the error
of filepath.Walk assigned to a variable the function never returns. -/
def resolvePathsAux (skip : Bool) (acc : List String) :
    List (String × Option Tree) → Except String (List String)
  | [] => .ok acc
  | (p, st) :: rest =>
    if p = "" then resolvePathsAux skip acc rest
    else
      match st with
      | none => .error "PathNotFound"
      | some t =>
        if Tree.isDirT t then
          resolvePathsAux skip (acc ++ (walkFromE skip p t).1) rest
        else
          resolvePathsAux skip (acc ++ [p]) rest

/-- ResolvePaths: each argument paired with its stat result; skip is the
NoRecurse option. -/
def ResolvePaths (skip : Bool) (args : List (String × Option Tree)) :
    Except String (List String) :=
  resolvePathsAux skip [] args

/-! Helper lemmas. -/

/-- A take of a list occurs at its own start. -/
theorem leadsWith_take (l : List Char) : ∀ n : Nat, leadsWith l (l.take n) = true := by
  induction l with
  | nil => intro n; simp [List.take_nil, leadsWith]
  | cons c s ih =>
    intro n
    cases n with
    | zero => simp [leadsWith]
    | succ m => simp [List.take_succ_cons, leadsWith, ih]

/-- Replacing the first occurrence of an initial segment of l replaces it
at position zero. -/
theorem replaceOnce_take (l new : List Char) (n : Nat) :
    replaceOnce (l.take n) new l = new ++ l.drop (l.take n).length := by
  cases l with
  | nil => simp [replaceOnce, leadsWith]
  | cons c rest => simp [replaceOnce, leadsWith_take]

/-- Every path collected by a skipping walk is collected by the full walk. -/
theorem walkE_skip_subset (t : Tree) (path x : String)
    (hx : x ∈ (walkFromE true path t).1) : x ∈ (walkFromE false path t).1 := by
  cases t with
  | file n => simp [walkFromE] at hx
  | baddir n => simp [walkFromE] at hx
  | dir n cs =>
    simp [walkFromE] at hx
    simp [walkFromE, hx]

/-- Accumulator-generalised superset lemma: every path resolved with the
skip policy is resolved without it. -/
theorem resolveAux_superset :
    ∀ (args : List (String × Option Tree)) (acc acc2 : List String),
      (∀ x ∈ acc, x ∈ acc2) → ∀ r : List String,
      resolvePathsAux true acc args = .ok r →
      ∃ r2, resolvePathsAux false acc2 args = .ok r2 ∧ ∀ x ∈ r, x ∈ r2 := by
  intro args
  induction args with
  | nil =>
    intro acc acc2 hsub r h
    simp [resolvePathsAux] at h
    exact ⟨acc2, rfl, h ▸ hsub⟩
  | cons pr rest ih =>
    intro acc acc2 hsub r h
    obtain ⟨p, st⟩ := pr
    by_cases hp : p = ""
    · subst hp
      simp [resolvePathsAux] at h ⊢
      exact ih acc acc2 hsub r h
    · cases st with
      | none => simp [resolvePathsAux, hp] at h
      | some t =>
        by_cases hd : Tree.isDirT t = true
        · simp [resolvePathsAux, hp, hd] at h ⊢
          refine ih _ _ ?_ r h
          intro x hx
          rcases List.mem_append.mp hx with hx | hx
          · exact List.mem_append.mpr (Or.inl (hsub x hx))
          · exact List.mem_append.mpr (Or.inr (walkE_skip_subset t p x hx))
        · simp [resolvePathsAux, hp, hd] at h ⊢
          refine ih _ _ ?_ r h
          intro x hx
          rcases List.mem_append.mp hx with hx | hx
          · exact List.mem_append.mpr (Or.inl (hsub x hx))
          · exact List.mem_append.mpr (Or.inr hx)

/-- Accumulator-generalised form: a non-empty argument whose stat fails
makes the resolver return an error. -/
theorem resolveAux_missing_errors :
    ∀ (args : List (String × Option Tree)) (skip : Bool) (acc : List String),
      (∃ pr ∈ args, pr.1 ≠ "" ∧ pr.2.isNone = true) →
      ∃ e, resolvePathsAux skip acc args = .error e := by
  intro args
  induction args with
  | nil => intro skip acc h; simp at h
  | cons pr rest ih =>
    intro skip acc h
    obtain ⟨q, hq, hne, hnone⟩ := h
    obtain ⟨p, st⟩ := pr
    rcases List.mem_cons.mp hq with heq | hmem
    · subst heq
      cases st with
      | none => exact ⟨"PathNotFound", by simp [resolvePathsAux, hne]⟩
      | some t => simp at hnone
    · by_cases hp : p = ""
      · subst hp
        obtain ⟨e, he⟩ := ih skip acc ⟨q, hmem, hne, hnone⟩
        exact ⟨e, by simpa [resolvePathsAux] using he⟩
      · cases st with
        | none => exact ⟨"PathNotFound", by simp [resolvePathsAux, hp]⟩
        | some t =>
          by_cases hd : Tree.isDirT t = true
          · obtain ⟨e, he⟩ := ih skip (acc ++ (walkFromE skip p t).1) ⟨q, hmem, hne, hnone⟩
            exact ⟨e, by simpa [resolvePathsAux, hp, hd] using he⟩
          · obtain ⟨e, he⟩ := ih skip (acc ++ [p]) ⟨q, hmem, hne, hnone⟩
            exact ⟨e, by simpa [resolvePathsAux, hp, hd] using he⟩

/-- Accumulator-generalised form: if every argument stats successfully
the resolver returns ok, whatever the walks did. -/
theorem resolveAux_ok_of_all_exist :
    ∀ (args : List (String × Option Tree)) (skip : Bool) (acc : List String),
      (∀ pr ∈ args, pr.2.isSome = true) →
      ∃ r, resolvePathsAux skip acc args = .ok r := by
  intro args
  induction args with
  | nil => intro skip acc _; exact ⟨acc, rfl⟩
  | cons pr rest ih =>
    intro skip acc h
    obtain ⟨p, st⟩ := pr
    have hst : st.isSome = true := h (p, st) (List.mem_cons_self _ _)
    have hrest : ∀ q ∈ rest, q.2.isSome = true := fun q hq => h q (List.mem_cons_of_mem _ hq)
    by_cases hp : p = ""
    · subst hp
      obtain ⟨r, hr⟩ := ih skip acc hrest
      exact ⟨r, by simpa [resolvePathsAux] using hr⟩
    · cases st with
      | none => simp at hst
      | some t =>
        by_cases hd : Tree.isDirT t = true
        · obtain ⟨r, hr⟩ := ih skip (acc ++ (walkFromE skip p t).1) hrest
          exact ⟨r, by simpa [resolvePathsAux, hp, hd] using hr⟩
        · obtain ⟨r, hr⟩ := ih skip (acc ++ [p]) hrest
          exact ⟨r, by simpa [resolvePathsAux, hp, hd] using hr⟩

/-! Claim theorems. -/

/-- Bytes of the five-byte example content "hello". -/
def helloBytes : List Nat := [104, 101, 108, 108, 111]

/-- Filesystem for the end-to-end copy scenario: the source file holds
"hello", the mirror root exists, the destination does not exist yet. -/
def fsHello : FS := [("/data/a.txt", .file helloBytes), ("/backup", .dir)]

/-- Claim C1 (code bug): part_000/part_001's Copy does write the full
"hello" content to a fresh destination, but watch.go's copyFile, at the
same input, reports success (ok with all five bytes counted as written)
while the destination it created holds no bytes at all: the five bytes
stay in the never-flushed bufio.Writer and are dropped on close, so an
incomplete destination is silently treated as success, contradicting the
claimed copy semantics. -/
theorem copyFile_unflushed_buffer_bug :
    (Copy fsHello "/data/a.txt" "/backup/data/a.txt").1 = .ok () ∧
    lookupFS (Copy fsHello "/data/a.txt" "/backup/data/a.txt").2 "/backup/data/a.txt"
      = some (.file helloBytes) ∧
    (copyFile fsHello "/backup/data/a.txt" "/data/a.txt").1 = .ok 5 ∧
    lookupFS (copyFile fsHello "/backup/data/a.txt" "/data/a.txt").2 "/backup/data/a.txt"
      = some (.file []) :=
  ⟨rfl, rfl, rfl, rfl⟩

/-- Filesystem at timer fire time for the deleted-source race: the mirror
root still exists but the source file is gone. -/
def fsGone : FS := [("/backup", .dir)]

/-- The pending delayed copy scheduled before the source was deleted. -/
def pcGone : Pending := ⟨"/data/a.txt", "/backup/data/a.txt"⟩

/-- Claim C2 (code bug): the timer body's existence re-check is IsFile,
which is the negation of IsDir, so a deleted source still counts as a
file and the copy is attempted anyway: the part_000/part_001 timer
reports an open error instead of succeeding silently, and the watch.go
timer additionally creates an empty destination file via O_CREATE before
its read fails — contradicting both the claim and the code's own comment
that a deleted file is to be skipped. -/
theorem deleted_source_not_skipped_bug :
    IsFile fsGone "/data/a.txt" = true ∧
    (fireTimerPart fsGone pcGone).1 = some "open src: no such file or directory" ∧
    (fireTimerWatch fsGone pcGone).1 = some "read: invalid argument" ∧
    lookupFS (fireTimerWatch fsGone pcGone).2 "/backup/data/a.txt" = some (.file []) :=
  ⟨rfl, rfl, rfl, rfl⟩

/-- Claim C3 (confirmed): the mirror-path mapping is a pure function of
(sourcePath, mirrorDir, platform): on windows the first two characters of
the source path are replaced by the mirror directory (the first
occurrence strings.Replace finds of the two-character slice is at
position zero), on path-rooted platforms the mirror directory is
prepended, and identical inputs give identical outputs. -/
theorem mirrorPath_pure_function (cd p : String) :
    (2 ≤ p.length →
      newPathOf true cd p = some (String.mk (cd.toList ++ p.toList.drop 2))) ∧
    newPathOf false cd p = some (cd ++ p) ∧
    (∀ w, newPathOf w cd p = newPathOf w cd p) := by
  refine ⟨?_, rfl, fun _ => rfl⟩
  intro h2
  unfold newPathOf goSlice
  rw [if_pos (⟨Nat.zero_le 2, h2⟩ : 0 ≤ 2 ∧ 2 ≤ p.toList.length)]
  simp only [List.drop_zero, replaceOnce_take]
  have hlen : (p.toList.take 2).length = 2 := by
    rw [List.length_take]
    exact Nat.min_eq_left h2
  rw [hlen]
  simp

/-- Witness for C3 at a concrete path and mirror directory. -/
theorem mirrorPath_pure_function_witness :
    newPathOf true "/backup" "/data/a.txt" = some "/backupata/a.txt" ∧
    newPathOf false "/backup" "/data/a.txt" = some "/backup/data/a.txt" :=
  ⟨((mirrorPath_pure_function "/backup" "/data/a.txt").1 (by decide)).trans (by decide),
   (mirrorPath_pure_function "/backup" "/data/a.txt").2.1⟩

/-- Claim C4 (confirmed): with no mirror directory configured, or a
configured one that does not exist as a directory, sync returns no error,
schedules nothing, and leaves the filesystem untouched — in particular it
never creates the mirror root. -/
theorem sync_noop_without_mirror (w : Bool) (fs : FS) (cd p : String)
    (h : cd.length = 0 ∨ IsDir fs cd = false) :
    sync w cd fs p = some (.ok (), fs, none) := by
  unfold sync
  rcases h with h | h
  · simp [h]
  · simp [h]

/-- Witness for C4: empty filesystem, unset mirror directory. -/
theorem sync_noop_without_mirror_witness :
    sync false "" [] "/data/a.txt" = some (.ok (), [], none) :=
  sync_noop_without_mirror false [] "" "/data/a.txt" (Or.inl rfl)

/-- Claim C5 (confirmed): when the source is a directory whose mirrored
destination already exists as a directory, sync returns no error,
schedules nothing, and leaves the filesystem exactly as it was — so
repeating the call any number of times repeats the same no-op. -/
theorem sync_existing_dir_idempotent (fs : FS) (cd p : String)
    (hp : IsDir fs p = true) (hd : IsDir fs (cd ++ p) = true) :
    sync false cd fs p = some (.ok (), fs, none) := by
  unfold sync
  by_cases hg : (cd.length == 0 || !(IsDir fs cd)) = true
  · simp [hg]
  · simp [hg, newPathOf, hp, hd]

/-- Witness for C5: a mirrored directory that already exists. -/
theorem sync_existing_dir_idempotent_witness :
    sync false "/backup" [("/data", .dir), ("/backup", .dir), ("/backup/data", .dir)] "/data"
      = some (.ok (), [("/data", .dir), ("/backup", .dir), ("/backup/data", .dir)], none) :=
  sync_existing_dir_idempotent _ "/backup" "/data" rfl rfl

/-- Claim C6 (confirmed): every path resolved under the no-recurse policy
is also resolved with recursion enabled (set-inclusion superset), and on a
root directory containing a subdirectory the no-recurse resolution
returns exactly the top-level directory. -/
theorem resolve_recurse_superset :
    (∀ (args : List (String × Option Tree)) (r : List String),
        ResolvePaths true args = .ok r →
        ∃ r2, ResolvePaths false args = .ok r2 ∧ ∀ x ∈ r, x ∈ r2) ∧
    ResolvePaths true [("/data", some (.dir "data" (.cons (.dir "sub" .nil) .nil)))]
      = .ok ["/data"] := by
  refine ⟨?_, rfl⟩
  intro args r h
  exact resolveAux_superset args [] [] (by simp) r h

/-- Witness for C6 on the scenario-4 tree. -/
theorem resolve_recurse_superset_witness :
    ∃ r2, ResolvePaths false [("/data", some (.dir "data" (.cons (.dir "sub" .nil) .nil)))]
        = .ok r2 ∧ ∀ x ∈ ["/data"], x ∈ r2 :=
  resolve_recurse_superset.1 _ ["/data"] rfl

/-- Counterexample to C7 as stated: the empty-string argument does not
exist on the filesystem (its stat fails), yet ResolvePaths skips it and
returns ok with no error. -/
theorem resolve_empty_missing_arg_ok :
    (("" : String), (none : Option Tree)).2.isNone = true ∧
    ResolvePaths false [("", none)] = .ok [] :=
  ⟨rfl, rfl⟩

/-- Claim C7 (corrected): for every NON-EMPTY input argument whose stat
fails, ResolvePaths returns the PathNotFound error, and the error return
carries no path results at all, so no partial results are produced. -/
theorem resolve_missing_nonempty_arg_errors (skip : Bool)
    (args : List (String × Option Tree))
    (h : ∃ pr ∈ args, pr.1 ≠ "" ∧ pr.2.isNone = true) :
    ∃ e, ResolvePaths skip args = .error e :=
  resolveAux_missing_errors args skip [] h

/-- Witness for the corrected C7 at a concrete missing argument. -/
theorem resolve_missing_nonempty_arg_errors_witness :
    ∃ e, ResolvePaths false [("/nope", none)] = .error e :=
  resolve_missing_nonempty_arg_errors false _ ⟨("/nope", none), by simp, by decide, rfl⟩

/-- Claim C8 (code bug): with an existing mirror directory as the second
CLI argument, the part_000/part_001 init condition (len == 0) emits no
diagnostic, as the claim states, but watch.go's init condition
(len > 0) emits the "copy target dir is not exists" diagnostic precisely
when mirroring was successfully enabled. -/
theorem init_diag_condition_bug :
    IsDir [("/backup", Entry.dir)] "/backup" = true ∧
    diagParts [("/backup", Entry.dir)] (some "/backup") = false ∧
    diagWatchGo [("/backup", Entry.dir)] (some "/backup") = true :=
  ⟨rfl, rfl, rfl⟩

/-- Claim C9 (confirmed): whenever every top-level argument stats
successfully, ResolvePaths returns ok — the error filepath.Walk returns
for a failed subtree traversal is assigned to a variable the function
never returns, so it is discarded and (resolved, nil) is returned. -/
theorem resolve_walk_error_discarded (skip : Bool)
    (args : List (String × Option Tree))
    (h : ∀ pr ∈ args, pr.2.isSome = true) :
    ∃ r, ResolvePaths skip args = .ok r :=
  resolveAux_ok_of_all_exist args skip [] h

/-- Witness for C9: a root directory whose entries cannot be read makes
the walk error, yet ResolvePaths still returns ok. -/
theorem resolve_walk_error_discarded_witness :
    (walkFromE false "/data" (Tree.baddir "data")).2.isSome = true ∧
    ∃ r, ResolvePaths false [("/data", some (Tree.baddir "data"))] = .ok r :=
  ⟨rfl, resolve_walk_error_discarded false _ (by decide)⟩

/-- Claim C10 (confirmed): on windows, with a configured and existing
mirror directory, sync reaches the two-character slice of the source path
unconditionally, so it completes without an out-of-range abort exactly
when the path has length at least two, and for every such path the slice
is in bounds and equal to the first two characters. -/
theorem sync_windows_slice_inbounds (fs : FS) (cd p : String)
    (hcd : cd.length ≠ 0) (hdir : IsDir fs cd = true) :
    ((sync true cd fs p).isSome ↔ 2 ≤ p.length) ∧
    (2 ≤ p.length → goSlice p.toList 0 2 = some (p.toList.take 2)) := by
  have hg : (cd.length == 0 || !(IsDir fs cd)) = false := by
    simp [hdir, hcd]
  constructor
  · unfold sync
    simp only [hg, Bool.false_eq_true, if_false]
    by_cases h2 : 2 ≤ p.length
    · have hnp : ∃ np, newPathOf true cd p = some np := by
        unfold newPathOf goSlice
        rw [if_pos (⟨Nat.zero_le 2, h2⟩ : 0 ≤ 2 ∧ 2 ≤ p.toList.length)]
        exact ⟨_, rfl⟩
      obtain ⟨np, hnp⟩ := hnp
      rw [hnp]
      simp only [h2, iff_true]
      split
      · split
        · rfl
        · split <;> rfl
      · split
        · split <;> rfl
        · rfl
    · have hnp : newPathOf true cd p = none := by
        simp [newPathOf, goSlice, h2]
      rw [hnp]
      simp [h2]
  · intro h2
    unfold goSlice
    rw [if_pos (⟨Nat.zero_le 2, h2⟩ : 0 ≤ 2 ∧ 2 ≤ p.toList.length)]
    rw [List.drop_zero]

/-- Witness for C10: mirror directory configured and existing, path of
length at least two. -/
theorem sync_windows_slice_inbounds_witness :
    ((sync true "/backup" [("/backup", Entry.dir)] "/data/a.txt").isSome
        ↔ 2 ≤ ("/data/a.txt" : String).length) ∧
    (2 ≤ ("/data/a.txt" : String).length →
        goSlice ("/data/a.txt" : String).toList 0 2
          = some (("/data/a.txt" : String).toList.take 2)) :=
  sync_windows_slice_inbounds [("/backup", Entry.dir)] "/backup" "/data/a.txt"
    (by decide) rfl

end Watch
